import Mathlib

/-!
Verification of the Hermetic-Voynich repository: a shallow embedding of
`translator.py` (the decision-driven multi-layer document synthesis pipeline)
and of `pattern_recog.py` (the naive text analyzer), with theorems settling
the specification claims about them.

Modelling conventions:
  - Python strings are Lean `String`; a parsed text file is a `List String`
    of its lines (the result of `str.splitlines`, so lines carry no newline).
  - A possibly-absent file is an `Option` of its parsed content
    (`none` = the file does not exist).
  - A `csv.DictReader` row is an association list `List (String, String)`
    from field name to cell value; `dict.get` is lookup of the first match.
  - Python string methods used by the source (`strip`, `lower`,
    `startswith`, substring `in`) are defined below over `String.data`
    character lists, following CPython semantics (for `strip()` the ASCII
    whitespace set, which covers every character the pipeline can see).
-/

/-! ## Python string-method primitives -/

/-- Characters removed by the sourceʼs bare `str.strip()` calls
(ASCII fragment of Pythonʼs whitespace set). -/
def pyWhitespace : List Char := [' ', '\t', '\n', '\r', '\x0b', '\x0c']

/-- Remove the characters of `bad` from both ends of a character list,
as Pythonʼs `str.strip(chars)` does. -/
def stripChars (bad : List Char) (cs : List Char) : List Char :=
  ((cs.dropWhile (fun c => bad.contains c)).reverse.dropWhile (fun c => bad.contains c)).reverse

/-- Pythonʼs bare `s.strip()`. -/
def pyStrip (s : String) : String := String.mk (stripChars pyWhitespace s.data)

/-- Pythonʼs `s.strip("- ")` as used on rationale lines. -/
def pyStripDashSpace (s : String) : String := String.mk (stripChars ['-', ' '] s.data)

/-- Boolean test that `p` is an initial segment of `s`
(Pythonʼs `s.startswith(p)` over character lists). -/
def listStarts : List Char → List Char → Bool
  | [], _ => true
  | _ :: _, [] => false
  | p :: ps, c :: cs => p == c && listStarts ps cs

/-- Everything after the first colon of a character list: the `[1]` component
of Pythonʼs `s.split(":", 1)` (the callers only use it when a colon exists). -/
def afterFirstColon : List Char → List Char
  | [] => []
  | c :: cs => if c == ':' then cs else afterFirstColon cs

/-- Pythonʼs `s.lower()` (ASCII case folding; the only compared keyword,
`"decision:"`, is pure ASCII). -/
def lowerStr (s : String) : String := String.mk (s.data.map Char.toLower)

/-- Contiguous-substring test over character lists
(Pythonʼs `p in s` for strings). -/
def isSubstrL (p : List Char) : List Char → Bool
  | [] => listStarts p []
  | c :: cs => listStarts p (c :: cs) || isSubstrL p cs

/-- Pythonʼs `p in s` on strings. -/
def pyInStr (p s : String) : Bool := isSubstrL p.data s.data

/-! ## translator.py: data model and input loaders -/

/-- One `csv.DictReader` row: the `PictorialSummary` mapping of the spec. -/
abbrev Pict := List (String × String)

/-- The `operator_histogram` of the sequence record: ordered
(operator symbol, count) pairs as loaded by `load_seq` (the JSON decoding
itself is plain I/O; the record is what every consumer reads from it). -/
abbrev SeqData := List (String × Nat)

/-- Pythonʼs `dict.get(key)`: the value at the first matching key, if any. -/
def dictGet (pict : Pict) (key : String) : Option String :=
  (pict.find? (fun kv => kv.1 == key)).map (fun kv => kv.2)

/-- Pythonʼs `dict.get(key, dflt)`. -/
def dictGetD (pict : Pict) (key dflt : String) : String :=
  (dictGet pict key).getD dflt

/-- Pythonʼs `x or d` for an optional string `x`: `d` unless `x` is present
and non-empty (`None` and `""` are both falsy). -/
def pyOrStr (x : Option String) (d : String) : String :=
  match x with
  | some s => if s = "" then d else s
  | none => d

/-- Embeds `load_pict` (translator.py lines 60-63): of the parsed
`csv.DictReader` rows, the first data row, or an empty mapping when the file
has a header but no data rows. -/
def load_pict (rows : List Pict) : Pict := rows.headD []

/-- Embeds the guarded call site `load_pict(PICT_PATH) if PICT_PATH.exists()
else {}` (translator.py line 221): an absent file also yields the empty
mapping. -/
def load_pict_checked (pictFile : Option (List Pict)) : Pict :=
  match pictFile with
  | some rows => load_pict rows
  | none => []

/-- One step of the rationale-collecting loop of `load_decision`
(translator.py lines 77-80): `ln.strip("- ").strip()`, appended when
non-empty. -/
def ratStep (acc : List String) (ln : String) : List String :=
  let cleaned := pyStrip (pyStripDashSpace ln)
  if cleaned = "" then acc else acc ++ [cleaned]

/-- Embeds `load_decision` (translator.py lines 67-81). The argument is the
note fileʼs lines (`none` when the file does not exist). -/
def load_decision (decFile : Option (List String)) : String × List String :=
  match decFile with
  | none => ("UNKNOWN", [])
  | some lines =>
    match lines with
    | [] => ("UNKNOWN", [])
    | l0 :: rest =>
      let head := pyStrip l0
      let dec :=
        if listStarts "decision:".data (lowerStr head).data then
          pyStrip (String.mk (afterFirstColon head.data))
        else "UNKNOWN"
      (dec, rest.foldl ratStep [])

/-! ## translator.py: summary extractors -/

/-- Embeds `phrase_counts` (translator.py lines 83-89): the five display
slots (roots, leaves, buds, bud state, bud colour). The leaf slot is the
Python truthiness chain
`pict.get("leaf_groups_count") or pict.get("leaf_pairs_count") or "?"`. -/
def phrase_counts (pict : Pict) : String × String × String × String × String :=
  (dictGetD pict "roots_count" "?",
   pyOrStr (dictGet pict "leaf_groups_count") (pyOrStr (dictGet pict "leaf_pairs_count") "?"),
   dictGetD pict "bud_count" "?",
   dictGetD pict "bud_state" "?",
   dictGetD pict "bud_colour" "?")

/-- Embeds `top_ops_hist` (translator.py lines 91-93): the first `k`
histogram entries, rendered as `"<symbol>×<count>"`. -/
def top_ops_hist (seq_data : SeqData) (k : Nat) : List String :=
  (seq_data.take k).map (fun e => e.1 ++ "×" ++ toString e.2)

/-! ## translator.py: frame assemblers -/

/-- Embeds the snapshot f-string shared by both assemblers (translator.py
lines 110 and 190); written with explicit right grouping (string
concatenation is associative, f-string interpolation is flat). -/
def snapshot_line (roots leaves buds bud_state bud_color ops : String) : String :=
  "Snapshot: roots=" ++ (roots ++ (", leaves≈" ++ (leaves ++ (", buds=" ++ (buds ++
    (" (" ++ (bud_state ++ ("/" ++ (bud_color ++ ("); frequent ops: " ++ ops))))))))))

/-- Embeds the static body extended onto `t` by `make_12key` (translator.py
lines 115-179). Adjacent Python string literals are concatenated by the
Python parser, so `"Step 1 — Vessel & Naming" ""` is one element, and the
two two-line literals (lines 143-144 and 147-148) are single elements. -/
def body12 : List String :=
  ["Step 1 — Vessel & Naming",
   "Dual Reading:",
   "The vessel is both the physical flask and the soul’s container. Invocation awakens both the material and the self to the alchemical journey.",
   "",
   "The division marks not only chemical partition but the mystical separation of ego and essence.",
   "",
   "Dissolution serves to cleanse material and purify the inner self through surrender.",
   "",
   "Distillation echoes the ascent of spirit; impurities fall away in both lab and life.",
   "",
   "Conjunction reflects union: Sulphur and Mercury, masculine and feminine, body and soul.",
   "",
   "Nigredo symbolizes the dark night of the soul; the blackening before rebirth.",
   "",
   "Albedo washes the psyche clean; Luna’s light reveals the purified spirit.",
   "",
   "Citrinitas is the dawning awareness; Mars forges willpower in transformation.",
   "",
   "Rubedo completes the cycle: the alchemist becomes the Stone.",
   "",
   "Planetary forces don’t just guide reactions—they govern stages of inner development.",
   "",
   "Circulation mirrors breath, prayer, and meditation: the Work is not linear.",
   "",
   "The seal closes not only a flask, but also a rite. Completion blesses both craft and soul.",
   "The matter is named and bound in its vessel. The root marks the body (Salt), fixed under Saturn’s weight. Invocation is repeated in glyphs (e.g., daiin) and leaf pairing, sealing the beginning of the work.",
   "",
   "Step 2 — Division",
   "The one is divided into twain and thrice: leaf pairs show duality, triplets imply the tria prima. Repetitions (daiin/aiin) and fixatives (chedy) portion the matter.",
   "",
   "Step 3 — Dissolution",
   "Stems and loops mark circulation and washing. Tokens like shol/chor indicate solve in water; the matter is softened and set apart.",
   "",
   "Step 4 — Distillation",
   "Droplet-like signs and repeated shody/qokedy patterns suggest distillation. Vapour rises and returns as dew; the subtle is separated from the gross.",
   "",
   "Step 5 — Conjunction",
   "Two buds appear, closed then opening: Sulphur unites with Mercury. Conjunction signs (cfhol) and daiin repetitions confirm the aim.",
   "",
   "Step 6 — Black Phase (Nigredo)",
   "Darkness of the root signals nigredo. The body putrefies; successive shody seals fix the stage.",
   "",
   "Step 7 — White Phase (Albedo)",
   "Leaves pale; east–west orientation encodes invocation and washing. Luna presides; the spirit clarifies.",
   "",
   "Step 8 — Yellow Phase (Citrinitas)",
   "Intermediate yellowing under Mars’s heat prepares perfection. Iterative forms (chedy, cthar) track cycles.",
   "",
   "Step 9 — Red Phase (Rubedo)",
   "The two red buds are the clearest cipher: open and red = Rubedo, the crown of the Work. Sol governs completion.",
   "",
   "Step 10 — Planetary Governance",
   "Saturn delays, Mars heats, Luna moistens, Sol perfects; leaf direction hints Air and Water. Planetary order binds the phases.",
   "",
   "Step 11 — Circulation & Return",
   "Cycles of daiin, shol, chor command: solve → coagula → fix. Vapours rise and fall; leaf pairs confirm counts (2, 3, 7).",
   "",
   "Step 12 — Seal & Completion",
   "Final y-terminations act as seals. With buds now red/open, the final conjunction is declared: the Work is closed and fixed."]

/-- Embeds the static body extended onto `t` by `make_7step` (translator.py
lines 194-212). The first element absorbs an adjacent `""` literal
(lines 195-196), exactly as the Python parser concatenates it. -/
def body7 : List String :=
  ["1) Name & Bind — Identify the matter, bind in the vessel, open the cycle with invocations (daiin).",
   "Spiritual Parallel:",
   "1) The name calls the soul to action; the vessel holds intent.",
   "2) Separation defines inner conflict; parts must know themselves.",
   "3) Washing purifies ego; flow liberates spirit.",
   "4) Distilling refines insight; vapor rises, truth condenses.",
   "5) Union heals duality; opposites embrace.",
   "6) Fixing grounds the Self; realization stabilizes the soul.",
   "7) Rubedo crowns the seeker; the Work completes with wisdom.",
   "2) Divide & Portion — Split into halves/thirds; assign portions; chedy marks fixation points.",
   "3) Solve — Wash/circulate (shol/chor); soften and separate.",
   "4) Distil — Raise and return the subtle (shody/qokedy); condense as dew.",
   "5) Conjoin — Recombine fractions (cfhol) under measured heat.",
   "6) Fix — Seal interim results (y endings), weigh against root heaviness (Saturn).",
   "7) Perfect — Advance through colours to red; crown under Sol; close with a final seal."]

/-- Embeds `make_12key` (translator.py lines 102-180): title, separator,
snapshot, the rationale line only when the rationale is non-empty, a blank
line, then the static body. The `decision` argument is accepted and unused,
as in the source. The 5-tuple of `phrase_counts` is read by projection. -/
def make_12key (seq_data : SeqData) (pict : Pict) (decision : String)
    (rationale : List String) : List String :=
  let pc := phrase_counts pict
  let ops := String.intercalate ", " (top_ops_hist seq_data 6)
  ["Translation of f1r — Twelve Keys (Allegorical)",
   "—",
   snapshot_line pc.1 pc.2.1 pc.2.2.1 pc.2.2.2.1 pc.2.2.2.2 ops]
  ++ (if rationale = [] then [] else ["Decision rationale: " ++ String.intercalate "; " rationale])
  ++ [""]
  ++ body12

/-- Embeds `make_7step` (translator.py lines 184-213): same header shape as
`make_12key`, then the seven-step static body. The `decision` argument is
accepted and unused, as in the source. -/
def make_7step (seq_data : SeqData) (pict : Pict) (decision : String)
    (rationale : List String) : List String :=
  let pc := phrase_counts pict
  let ops := String.intercalate ", " (top_ops_hist seq_data 6)
  ["Translation of f1r — Seven-Step Operator Cycle",
   "—",
   snapshot_line pc.1 pc.2.1 pc.2.2.1 pc.2.2.2.1 pc.2.2.2.2 ops]
  ++ (if rationale = [] then [] else ["Decision rationale: " ++ String.intercalate "; " rationale])
  ++ [""]
  ++ body7

/-! ## translator.py: layer splitter / merger and orchestrator -/

/-- Embeds the layer split of `main` (translator.py lines 244-246 and
257-259): `txt.index(marker)` locates the first occurrence, the head layer is
`txt[:i]`, the tail layer is `txt[i+1:]`. -/
def splitLayers (txt : List String) (marker : String) : List String × List String :=
  let i := txt.indexOf marker
  (txt.take i, txt.drop (i + 1))

/-- Embeds one iteration of the merge loops of `main` (translator.py lines
248-252 and 261-265): what the iteration appends for the pair `(op, sp)`,
if anything. -/
def mergePair (op sp : String) : Option String :=
  if pyStrip op ≠ "" ∧ pyStrip sp ≠ "" then some (pyStrip op ++ " / " ++ pyStrip sp)
  else if pyStrip op ≠ "" then some (pyStrip op)
  else none

/-- Embeds the merge loops of `main` (translator.py lines 247-253 and
260-266): iterate over `zip(head, tail)`, collecting what each iteration
appends. -/
def mergeLines (head tail : List String) : List String :=
  (head.zip tail).filterMap (fun p => mergePair p.1 p.2)

/-- Embeds the frame-production part of `main` (translator.py lines 227-242):
the 12-key frame is always built from the loaded decision and rationale; the
7-step frame is built with the real rationale only when the decision equals
`"7_STEPS_OPERATOR"`, and otherwise with the comparative label and an empty
rationale. -/
def mainFrames (seq_data : SeqData) (pict : Pict) (decision : String)
    (rationale : List String) : List String × List String :=
  let txt12 := make_12key seq_data pict decision rationale
  let txt7 :=
    if decision = "7_STEPS_OPERATOR" then make_7step seq_data pict decision rationale
    else make_7step seq_data pict "7_STEPS_OPERATOR (comparative)" []
  (txt12, txt7)

/-- The ten file contents `main` persists, in source order of the `OUT_*`
constants (translator.py lines 30-49). -/
structure Artifacts where
  out12 : String
  out7 : String
  out12_lab : String
  out12_spir : String
  out12_merge : String
  out12_transl : String
  out7_lab : String
  out7_spir : String
  out7_merge : String
  out7_transl : String
deriving DecidableEq

/-- Embeds the whole of `main` (translator.py lines 217-267) as the pure map
from the three parsed inputs to the ten persisted file contents. Every
`write_text` argument is reproduced exactly: full frames and merged layers
are joined with newlines plus one trailing newline; each single layer is
joined, stripped as a whole and given one trailing newline. -/
def mainRun (seq_data : SeqData) (pictFile : Option (List Pict))
    (decFile : Option (List String)) : Artifacts :=
  let pict := load_pict_checked pictFile
  let dec := load_decision decFile
  let frames := mainFrames seq_data pict dec.1 dec.2
  let txt12 := frames.1
  let txt7 := frames.2
  let layers12 := splitLayers txt12 "Dual Reading:"
  let merged12 := mergeLines layers12.1 layers12.2
  let layers7 := splitLayers txt7 "Spiritual Parallel:"
  let merged7 := mergeLines layers7.1 layers7.2
  ⟨String.intercalate "\n" txt12 ++ "\n",
   String.intercalate "\n" txt7 ++ "\n",
   pyStrip (String.intercalate "\n" layers12.1) ++ "\n",
   pyStrip (String.intercalate "\n" layers12.2) ++ "\n",
   String.intercalate "\n" merged12 ++ "\n",
   String.intercalate "\n" txt12 ++ "\n",
   pyStrip (String.intercalate "\n" layers7.1) ++ "\n",
   pyStrip (String.intercalate "\n" layers7.2) ++ "\n",
   String.intercalate "\n" merged7 ++ "\n",
   String.intercalate "\n" txt7 ++ "\n"⟩

/-! ## pattern_recog.py: the collaborating analyzer -/

/-- Embeds `OPS` (pattern_recog.py line 7): the fixed operator list. -/
def OPS : List String := ["Ĉ", "Ŝ", "B̂", "R̂", "E", "F", "T", "H", "D", "M", "X", "N"]

/-- Embeds the `operators_detected` field of `analyze` (pattern_recog.py
line 12): `[op for op in OPS if op in text]`. The remaining fields of
`analyze` are regex-match counts over Pythonʼs `re` engine and are outside
the claims about this collaborator. -/
def operators_detected (text : String) : List String :=
  OPS.filter (fun op => pyInStr op text)

/-! ## Specification-side definitions

Each definition below renders a claim of the specification in the claimʼs own
words, to be compared with the corresponding source-derived definition
above. -/

/-- Claim C1ʼs merge rule as stated: both lines non-blank after trimming are
joined with `" / "`; a pair with exactly one non-blank line keeps that line
alone and unchanged; a blank/blank pair produces nothing. -/
def mergeClaimedC1 : List String → List String → List String
  | h :: hs, t :: ts =>
    let rest := mergeClaimedC1 hs ts
    if pyStrip h ≠ "" ∧ pyStrip t ≠ "" then (pyStrip h ++ " / " ++ pyStrip t) :: rest
    else if pyStrip h ≠ "" then h :: rest
    else if pyStrip t ≠ "" then t :: rest
    else rest
  | _, _ => []

/-- The merge rule as amended: a pair whose head line is blank yields nothing
even when the tail line is non-blank, and a lone non-blank head line is kept
in trimmed form. -/
def mergeAmendedC1 : List String → List String → List String
  | h :: hs, t :: ts =>
    let rest := mergeAmendedC1 hs ts
    if pyStrip h = "" then rest
    else if pyStrip t = "" then pyStrip h :: rest
    else (pyStrip h ++ " / " ++ pyStrip t) :: rest
  | _, _ => []

/-- Claim C6ʼs rationale rule as stated: every subsequent line with only its
leading `-` and space characters stripped, kept when non-blank. -/
def rationaleClaimedC6 (lines : List String) : List String :=
  (lines.drop 1).filterMap (fun ln =>
    let cleaned := String.mk (ln.data.dropWhile (fun c => c == '-' || c == ' '))
    if cleaned = "" then none else some cleaned)

/-- The rationale rule as amended: `-` and space characters are stripped from
both ends (then surrounding whitespace), and the line is kept when what
remains is non-blank; source order, no re-sorting, no deduplication. -/
def rationaleAmendedC6 (lines : List String) : List String :=
  (lines.drop 1).filterMap (fun ln =>
    let cleaned := pyStrip (pyStripDashSpace ln)
    if cleaned = "" then none else some cleaned)

/-- Claim C6ʼs declared-value rule as stated: the value of the first line
when that line, trimmed, has the shape `decision: <value>` with the keyword
compared case-insensitively, and `UNKNOWN` otherwise. -/
def decisionValueC6 (lines : List String) : String :=
  match lines with
  | [] => "UNKNOWN"
  | l0 :: _ =>
    let head := pyStrip l0
    if listStarts "decision:".data (lowerStr head).data then
      pyStrip (String.mk (afterFirstColon head.data))
    else "UNKNOWN"

/-- Claim C5ʼs leaf-slot rule as stated: the first field name wins whenever
it is present in the mapping, with no condition on its value. -/
def leavesClaimedC5 (pict : Pict) : String :=
  match dictGet pict "leaf_groups_count" with
  | some s => s
  | none => (dictGet pict "leaf_pairs_count").getD "?"

/-- First candidate value that is present and non-empty, else the
placeholder: the amended leaf-slot rule, written as the ordered candidate
scan of the specʼs design note. -/
def firstTruthySlot (cands : List (Option String)) (dflt : String) : String :=
  match cands with
  | [] => dflt
  | x :: xs =>
    match x with
    | some s => if s = "" then firstTruthySlot xs dflt else s
    | none => firstTruthySlot xs dflt

/-- The five slots as claim C5 reads once amended: plain default lookup for
roots, buds, bud state and bud colour; for the leaf slot the first field
whose value is present and non-empty, else `"?"`. -/
def phrase_counts_specC5 (pict : Pict) : String × String × String × String × String :=
  (dictGetD pict "roots_count" "?",
   firstTruthySlot [dictGet pict "leaf_groups_count", dictGet pict "leaf_pairs_count"] "?",
   dictGetD pict "bud_count" "?",
   dictGetD pict "bud_state" "?",
   dictGetD pict "bud_colour" "?")

/-! ## Helper lemmas -/

/-- A list starts with itself followed by anything. -/
theorem listStarts_append_right (p s t : List Char) (h : listStarts p s = true) :
    listStarts p (s ++ t) = true := by
  induction p generalizing s with
  | nil => simp [listStarts]
  | cons a ps ih =>
    cases s with
    | nil => simp [listStarts] at h
    | cons c cs =>
      simp [listStarts] at h ⊢
      exact ⟨h.1, ih cs h.2⟩

theorem listStarts_refl (p : List Char) : listStarts p p = true := by
  induction p with
  | nil => rfl
  | cons a ps ih => simp [listStarts, ih]

theorem listStarts_self_append (p t : List Char) : listStarts p (p ++ t) = true :=
  listStarts_append_right p p t (listStarts_refl p)

/-- A string that begins with `pre` cannot equal a string that does not. -/
theorem ne_of_starts_not (pre rest m : String)
    (h : listStarts pre.data m.data = false) : pre ++ rest ≠ m := by
  intro he
  have hd : pre.data ++ rest.data = m.data := by
    rw [← String.data_append, he]
  rw [← hd, listStarts_self_append] at h
  cases h

/-- A snapshot line never equals the 12-key marker, whatever fills the
interpolation slots. -/
theorem snapshot_ne_dual (r l b s c o : String) :
    snapshot_line r l b s c o ≠ "Dual Reading:" :=
  ne_of_starts_not _ _ _ (by decide)

/-- A snapshot line never equals the 7-step marker. -/
theorem snapshot_ne_spir (r l b s c o : String) :
    snapshot_line r l b s c o ≠ "Spiritual Parallel:" :=
  ne_of_starts_not _ _ _ (by decide)

/-- A rationale line never equals the 12-key marker. -/
theorem rat_ne_dual (x : String) :
    ("Decision rationale: " ++ x) ≠ "Dual Reading:" :=
  ne_of_starts_not _ _ _ (by decide)

/-- A rationale line never equals the 7-step marker. -/
theorem rat_ne_spir (x : String) :
    ("Decision rationale: " ++ x) ≠ "Spiritual Parallel:" :=
  ne_of_starts_not _ _ _ (by decide)

theorem make_12key_marker_once (seq_data : SeqData) (pict : Pict) (decision : String)
    (rationale : List String) :
    (make_12key seq_data pict decision rationale).count "Dual Reading:" = 1 := by
  have hsnap := snapshot_ne_dual (phrase_counts pict).1 (phrase_counts pict).2.1
    (phrase_counts pict).2.2.1 (phrase_counts pict).2.2.2.1 (phrase_counts pict).2.2.2.2
    (String.intercalate ", " (top_ops_hist seq_data 6))
  have hrat := rat_ne_dual (String.intercalate "; " rationale)
  by_cases h : rationale = [] <;>
    simp [make_12key, h, List.count_append, List.count_cons, hsnap, hrat] <;>
    decide

theorem make_7step_marker_once (seq_data : SeqData) (pict : Pict) (decision : String)
    (rationale : List String) :
    (make_7step seq_data pict decision rationale).count "Spiritual Parallel:" = 1 := by
  have hsnap := snapshot_ne_spir (phrase_counts pict).1 (phrase_counts pict).2.1
    (phrase_counts pict).2.2.1 (phrase_counts pict).2.2.2.1 (phrase_counts pict).2.2.2.2
    (String.intercalate ", " (top_ops_hist seq_data 6))
  have hrat := rat_ne_spir (String.intercalate "; " rationale)
  by_cases h : rationale = [] <;>
    simp [make_7step, h, List.count_append, List.count_cons, hsnap, hrat] <;>
    decide

/-- The element at the first index of `a` is not among the elements before
that index. -/
theorem not_mem_take_indexOf (l : List String) (a : String) :
    a ∉ l.take (l.indexOf a) := by
  induction l with
  | nil => simp
  | cons b bs ih =>
    by_cases hba : b = a
    · subst hba; simp [List.indexOf_cons]
    · have hidx : (b :: bs).indexOf a = bs.indexOf a + 1 := by
        simp [List.indexOf_cons, hba]
      rw [hidx, List.take_succ_cons]
      simp only [List.mem_cons, not_or]
      exact ⟨fun he => hba he.symm, ih⟩

/-- Splitting a list at the first occurrence of a member reassembles it. -/
theorem indexOf_decomp (l : List String) (a : String) (h : a ∈ l) :
    l = l.take (l.indexOf a) ++ a :: l.drop (l.indexOf a + 1) := by
  have hlt : l.indexOf a < l.length := List.indexOf_lt_length.mpr h
  conv_lhs => rw [← List.take_append_drop (l.indexOf a) l]
  rw [List.drop_eq_getElem_cons hlt]
  congr 2
  exact List.getElem_indexOf hlt

/-- The rationale loop is a filterMap of the cleaning step over the lines. -/
theorem ratStep_foldl (rest : List String) : ∀ acc : List String,
    rest.foldl ratStep acc = acc ++ rest.filterMap (fun ln =>
      let cleaned := pyStrip (pyStripDashSpace ln)
      if cleaned = "" then none else some cleaned) := by
  induction rest with
  | nil => intro acc; simp
  | cons ln rest ih =>
    intro acc
    rw [List.foldl_cons, ih, List.filterMap_cons]
    by_cases h : pyStrip (pyStripDashSpace ln) = ""
    · simp [ratStep, h]
    · simp [ratStep, h]

/-- The Python truthiness chain of the leaf slot is the ordered
first-present-non-empty candidate scan. -/
theorem pyOr_firstTruthy (a b : Option String) :
    pyOrStr a (pyOrStr b "?") = firstTruthySlot [a, b] "?" := by
  cases a <;> cases b <;> simp [pyOrStr, firstTruthySlot]

theorem listStarts_nil_iff (p : List Char) : listStarts p [] = true ↔ p = [] := by
  cases p with
  | nil => simp [listStarts]
  | cons a ps => simp [listStarts]

/-- Boolean initial-segment test, characterized. -/
theorem listStarts_iff (p : List Char) : ∀ s : List Char,
    (listStarts p s = true ↔ ∃ r, s = p ++ r) := by
  induction p with
  | nil => intro s; simp [listStarts]
  | cons a ps ih =>
    intro s
    cases s with
    | nil => simp [listStarts]
    | cons c cs =>
      simp only [listStarts, Bool.and_eq_true, beq_iff_eq, ih cs]
      constructor
      · rintro ⟨rfl, r, rfl⟩; exact ⟨r, rfl⟩
      · rintro ⟨r, hr⟩
        rw [List.cons_append] at hr
        injection hr with h1 h2
        exact ⟨h1.symm, r, h2⟩

/-- Boolean contiguous-substring test, characterized. -/
theorem isSubstrL_iff (p : List Char) : ∀ s : List Char,
    (isSubstrL p s = true ↔ ∃ pre post, s = pre ++ p ++ post) := by
  intro s
  induction s with
  | nil =>
    rw [show isSubstrL p [] = listStarts p [] from rfl, listStarts_nil_iff]
    constructor
    · rintro rfl; exact ⟨[], [], rfl⟩
    · rintro ⟨pre, post, h⟩
      rcases List.append_eq_nil.mp (List.append_eq_nil.mp h.symm).1 with ⟨-, h2⟩
      exact h2
  | cons c cs ih =>
    rw [show isSubstrL p (c :: cs) = (listStarts p (c :: cs) || isSubstrL p cs) from rfl]
    rw [Bool.or_eq_true, listStarts_iff, ih]
    constructor
    · rintro (⟨r, hr⟩ | ⟨pre, post, h⟩)
      · exact ⟨[], r, by simpa using hr⟩
      · exact ⟨c :: pre, post, by simp [h]⟩
    · rintro ⟨pre, post, h⟩
      cases pre with
      | nil => exact Or.inl ⟨post, by simpa using h⟩
      | cons x xs =>
        rw [List.cons_append, List.cons_append] at h
        injection h with h1 h2
        exact Or.inr ⟨xs, post, h2⟩

/-! ## Claim theorems -/

/-- C1 (counterexample): at head layer `["", " x "]` and tail layer
`["y", ""]` the merge loop emits `["x"]`, while the rule the claim states
(a pair with exactly one non-blank line keeps that line alone and unchanged)
would emit `["y", " x "]`: the blank-head/non-blank-tail pair is dropped
entirely, and the lone kept line is trimmed rather than unchanged. -/
theorem merge_blank_rule_counterexample :
    mergeLines ["", " x "] ["y", ""] = ["x"]
    ∧ mergeClaimedC1 ["", " x "] ["y", ""] = ["y", " x "]
    ∧ mergeLines ["", " x "] ["y", ""] ≠ mergeClaimedC1 ["", " x "] ["y", ""] := by
  decide

/-- C1 (amended): for every pair of layers, the merged output follows the
positional rule with the two corrections the code forces: a pair whose head
line is blank after trimming produces no merged line even when the tail line
is non-blank; a pair with only the head line non-blank keeps that line in
trimmed form; a pair with both lines non-blank joins their trimmed forms
with `" / "`; pairing stops at the shorter layer. -/
theorem merge_blank_rule_amended (head : List String) : ∀ tail : List String,
    mergeLines head tail = mergeAmendedC1 head tail := by
  induction head with
  | nil => intro tail; cases tail <;> rfl
  | cons h hs ih =>
    intro tail
    cases tail with
    | nil => rfl
    | cons t ts =>
      rw [show mergeLines (h :: hs) (t :: ts)
            = (mergePair h t).toList ++ mergeLines hs ts by
          simp [mergeLines, List.zip_cons_cons, List.filterMap_cons]
          cases mergePair h t <;> simp]
      rw [ih ts]
      by_cases h1 : pyStrip h = ""
      · simp [mergeAmendedC1, mergePair, h1]
      · by_cases h2 : pyStrip t = ""
        · simp [mergeAmendedC1, mergePair, h1, h2]
        · simp [mergeAmendedC1, mergePair, h1, h2]

/-- C2: the orchestrator always builds the 12-key frame from the loaded
decision and rationale; the 7-step frame is never skipped — it is built with
the real rationale exactly when the declared decision equals
`"7_STEPS_OPERATOR"`, and for any other declared value it is built with an
empty rationale and the comparative label (which contains `"comparative"`);
the persisted short-frame artifact always renders that frame. -/
theorem short_frame_selection (seq_data : SeqData) (pict : Pict) (decision : String)
    (rationale : List String) (pictFile : Option (List Pict))
    (decFile : Option (List String)) :
    (mainFrames seq_data pict decision rationale).1
      = make_12key seq_data pict decision rationale
    ∧ (decision = "7_STEPS_OPERATOR" →
        (mainFrames seq_data pict decision rationale).2
          = make_7step seq_data pict decision rationale)
    ∧ (decision ≠ "7_STEPS_OPERATOR" →
        (mainFrames seq_data pict decision rationale).2
          = make_7step seq_data pict "7_STEPS_OPERATOR (comparative)" [])
    ∧ pyInStr "comparative" "7_STEPS_OPERATOR (comparative)" = true
    ∧ (mainRun seq_data pictFile decFile).out7
        = String.intercalate "\n"
            (mainFrames seq_data (load_pict_checked pictFile)
              (load_decision decFile).1 (load_decision decFile).2).2 ++ "\n" := by
  refine ⟨rfl, fun h => ?_, fun h => ?_, by decide, rfl⟩ <;> simp [mainFrames, h]

/-- C3: for a frame holding its marker line exactly once (the NarrativeFrame
invariant), splitting at the first occurrence of the marker yields the lines
strictly before it as head layer and the lines strictly after it as tail
layer, the marker belongs to neither layer, and
`head.length + 1 + tail.length = frame.length`. -/
theorem split_layers_spec (txt : List String) (marker : String)
    (h : txt.count marker = 1) :
    txt = (splitLayers txt marker).1 ++ marker :: (splitLayers txt marker).2
    ∧ marker ∉ (splitLayers txt marker).1
    ∧ marker ∉ (splitLayers txt marker).2
    ∧ (splitLayers txt marker).1.length + 1 + (splitLayers txt marker).2.length
        = txt.length := by
  simp only [splitLayers]
  have hmem : marker ∈ txt := by
    have hpos : 0 < txt.count marker := by omega
    exact List.count_pos_iff.mp hpos
  have hd := indexOf_decomp txt marker hmem
  have hnh := not_mem_take_indexOf txt marker
  refine ⟨hd, hnh, ?_, ?_⟩
  · intro hmem2
    have hc := congrArg (List.count marker) hd
    rw [List.count_append, List.count_cons_self] at hc
    have h0 : (txt.take (txt.indexOf marker)).count marker = 0 :=
      List.count_eq_zero.mpr hnh
    have hpos2 : 0 < (txt.drop (txt.indexOf marker + 1)).count marker :=
      List.count_pos_iff.mpr hmem2
    omega
  · have hl := congrArg List.length hd
    simp only [List.length_append, List.length_cons] at hl
    omega

/-- C3 (witness): the split property at the concrete frame
`["a", "M", "b"]` with marker `"M"`. -/
theorem split_layers_spec_witness :
    (["a", "M", "b"] : List String)
      = (splitLayers ["a", "M", "b"] "M").1 ++ "M" :: (splitLayers ["a", "M", "b"] "M").2
    ∧ "M" ∉ (splitLayers ["a", "M", "b"] "M").1
    ∧ "M" ∉ (splitLayers ["a", "M", "b"] "M").2
    ∧ (splitLayers ["a", "M", "b"] "M").1.length + 1
        + (splitLayers ["a", "M", "b"] "M").2.length
        = (["a", "M", "b"] : List String).length :=
  split_layers_spec ["a", "M", "b"] "M" (by decide)

/-- C4: for all inputs, each assembled frame holds its designated layer
marker as a whole line exactly once: `"Dual Reading:"` in the 12-key frame
and `"Spiritual Parallel:"` in the 7-step frame; no interpolated snapshot or
rationale line can collide with either marker. -/
theorem frame_marker_exactly_once (seq_data : SeqData) (pict : Pict)
    (decision : String) (rationale : List String) :
    (make_12key seq_data pict decision rationale).count "Dual Reading:" = 1
    ∧ (make_7step seq_data pict decision rationale).count "Spiritual Parallel:" = 1 :=
  ⟨make_12key_marker_once seq_data pict decision rationale,
   make_7step_marker_once seq_data pict decision rationale⟩

/-- C5 (counterexample): with `leaf_groups_count` present but holding the
empty string and `leaf_pairs_count` holding `"5"`, the code resolves the
leaf slot to `"5"`, not to the present first fieldʼs value as the claim
states (first field takes precedence whenever present). -/
theorem phrase_counts_leaf_counterexample :
    dictGet [("leaf_groups_count", ""), ("leaf_pairs_count", "5")] "leaf_groups_count"
      = some ""
    ∧ (phrase_counts [("leaf_groups_count", ""), ("leaf_pairs_count", "5")]).2.1 = "5"
    ∧ leavesClaimedC5 [("leaf_groups_count", ""), ("leaf_pairs_count", "5")] = ""
    ∧ (phrase_counts [("leaf_groups_count", ""), ("leaf_pairs_count", "5")]).2.1
        ≠ leavesClaimedC5 [("leaf_groups_count", ""), ("leaf_pairs_count", "5")] := by
  decide

/-- C5 (amended): `phrase_counts` never fails and resolves every slot to the
mapped value when present and to `"?"` when absent — except that the leaf
slot takes the first of `leaf_groups_count`, `leaf_pairs_count` whose value
is present and non-empty (Python truthiness), else `"?"`. -/
theorem phrase_counts_slots_amended (pict : Pict) :
    phrase_counts pict = phrase_counts_specC5 pict := by
  simp [phrase_counts, phrase_counts_specC5, pyOr_firstTruthy]

/-- C6 (counterexample): on a note whose second line is `"- keep this -"`
the code returns the rationale item `"keep this"` — trailing `-`/space
characters are stripped too — while the claim (only leading `-`/space
stripped) predicts `"keep this -"`. -/
theorem load_decision_rationale_counterexample :
    (load_decision (some ["decision: X", "- keep this -"])).2 = ["keep this"]
    ∧ rationaleClaimedC6 ["decision: X", "- keep this -"] = ["keep this -"]
    ∧ (load_decision (some ["decision: X", "- keep this -"])).2
        ≠ rationaleClaimedC6 ["decision: X", "- keep this -"] := by
  decide

/-- C6 (amended): for every existing note, `load_decision` returns the
declared value read case-insensitively from a trimmed first line of shape
`decision: <value>` (else `UNKNOWN`), and as rationale exactly the
subsequent lines with `-` and space characters stripped from both ends (and
surrounding whitespace removed) that remain non-blank, in source order with
no re-sorting and no deduplication. -/
theorem load_decision_parse_amended (lines : List String) :
    load_decision (some lines) = (decisionValueC6 lines, rationaleAmendedC6 lines) := by
  cases lines with
  | nil => rfl
  | cons l0 rest =>
    simp only [load_decision, decisionValueC6, rationaleAmendedC6]
    rw [Prod.mk.injEq]
    refine ⟨rfl, ?_⟩
    rw [ratStep_foldl rest []]
    simp

/-- C7: the pictorial loader returns the empty summary when the file does
not exist and when the file has a header but no data rows, and returns
exactly the first data row when at least one is present. -/
theorem load_pict_first_row_or_empty :
    load_pict_checked none = []
    ∧ load_pict_checked (some []) = []
    ∧ ∀ (r : Pict) (rest : List Pict), load_pict_checked (some (r :: rest)) = r :=
  ⟨rfl, rfl, fun _ _ => rfl⟩

/-- C8: a missing decision note yields `("UNKNOWN", [])` as an ordinary
value of the total function `load_decision` — not a failure. -/
theorem load_decision_missing_file : load_decision none = ("UNKNOWN", []) := rfl

/-- C9: the pipeline is deterministic: runs over equal input triples produce
equal contents for all ten persisted artifacts, and merging the same pair of
layers twice gives identical output (every stage is a pure function of its
inputs). -/
theorem pipeline_deterministic (s1 s2 : SeqData) (p1 p2 : Option (List Pict))
    (d1 d2 : Option (List String)) (head tail : List String)
    (hs : s1 = s2) (hp : p1 = p2) (hd : d1 = d2) :
    mainRun s1 p1 d1 = mainRun s2 p2 d2
    ∧ mergeLines head tail = mergeLines head tail := by
  subst hs; subst hp; subst hd; exact ⟨rfl, rfl⟩

/-- C9 (witness): determinism instantiated at a concrete input triple. -/
theorem pipeline_deterministic_witness :
    mainRun [] none none = mainRun [] none none
    ∧ mergeLines ["a"] ["b"] = mergeLines ["a"] ["b"] :=
  pipeline_deterministic [] [] none none none none ["a"] ["b"] rfl rfl rfl

/-- C10: for every input text, `operators_detected` lists exactly the
symbols of `OPS` occurring as contiguous substrings of the text, in the
fixed order of `OPS` (a sublist of it) and without duplicates, independent
of where or how often they occur. -/
theorem operators_detected_spec (text : String) :
    List.Sublist (operators_detected text) OPS
    ∧ (operators_detected text).Nodup
    ∧ ∀ op : String, op ∈ operators_detected text ↔
        op ∈ OPS ∧ ∃ pre post : List Char, text.data = pre ++ op.data ++ post := by
  refine ⟨List.filter_sublist OPS,
    List.Nodup.sublist (List.filter_sublist OPS) (by decide), ?_⟩
  intro op
  rw [operators_detected, List.mem_filter]
  simp only [pyInStr, isSubstrL_iff]
